import Mathlib

/-!
Verification development for the Pane Session & Agent Routing Core of the
vibe-ade repository.  The definitions below are a shallow embedding of
`src/apps/vibe-clone/electron/main.ts` (the Electron main process that owns
pty sessions, the command policy filter, the two agent backend clients and
the per-pane agent router).  Pure functions of the source become Lean
functions; the stateful handlers become explicit state-passing functions
that also return the ordered list of observable events (IPC sends, process
writes, network calls, AbortController operations) they emit.
-/

namespace VibeAde

/-! ## Character classes and JS string helpers

JavaScript regex character classes, restricted to the ASCII range that the
source's patterns and inputs use: `\w` is `[A-Za-z0-9_]`, `\s` matches the
ASCII whitespace characters.  `String.prototype.trim` strips whitespace
from both ends. -/

/-- JS regex word character `\w` (ASCII: letters, digits, underscore). -/
def isWordChar (c : Char) : Bool :=
  c.isAlpha || c.isDigit || c = '_'

/-- JS regex whitespace `\s`, restricted to ASCII whitespace. -/
def isJsWs (c : Char) : Bool :=
  c = ' ' || c = '\t' || c = '\n' || c = '\r' || c = '\x0b' || c = '\x0c'

/-- JS `String.prototype.trim` on a character list (ASCII whitespace). -/
def jsTrim (l : List Char) : List Char :=
  ((l.dropWhile isJsWs).reverse.dropWhile isJsWs).reverse

/-- JS `String.prototype.trim` on strings. -/
def jsTrimStr (s : String) : String :=
  ⟨jsTrim s.toList⟩

/-- If `w` is a prefix of `l`, return the remainder after the match. -/
def beginsWith : List Char → List Char → Option (List Char)
  | [], l => some l
  | _, [] => none
  | c :: w, c' :: l => if c = c' then beginsWith w l else none

/-- A JS `\b` boundary after a keyword ending in a word character:
the next character must be absent or a non-word character. -/
def boundaryOk : List Char → Bool
  | [] => true
  | c :: _ => !isWordChar c

/-- Does keyword `w` (starting and ending in word characters) match at the
head of `l`, with `\b` on both sides?  `prevIsWord` says whether the
character just before `l` is a word character. -/
def wordHitAt (prevIsWord : Bool) (l w : List Char) : Bool :=
  !prevIsWord &&
    (match beginsWith w l with
     | some rest => boundaryOk rest
     | none => false)

/-- Scan `l` for a `\b w \b` match (JS `pattern.test`), where `prevIsWord`
records the word-character status of the character before `l`. -/
def containsWordFrom (prevIsWord : Bool) : List Char → List Char → Bool
  | [], w => wordHitAt prevIsWord [] w
  | c :: rest, w =>
      wordHitAt prevIsWord (c :: rest) w ||
        containsWordFrom (isWordChar c) rest w

/-- `(/\b w \b/).test l` for a literal keyword `w`. -/
def containsWord (l w : List Char) : Bool :=
  containsWordFrom false l w

/-- Match of `reg\s+delete` (with `\b` on both sides) at the head of `l`.
`\s+` is greedy; since `delete` starts with a non-whitespace character,
maximal munch is exact. -/
def regDeleteHitAt (prevIsWord : Bool) (l : List Char) : Bool :=
  !prevIsWord &&
    (match beginsWith "reg".toList l with
     | none => false
     | some rest =>
         !(rest.takeWhile isJsWs).isEmpty &&
           (match beginsWith "delete".toList (rest.dropWhile isJsWs) with
            | none => false
            | some rest2 => boundaryOk rest2))

/-- Scan for `/\breg\s+delete\b/`. -/
def containsRegDeleteFrom (prevIsWord : Bool) : List Char → Bool
  | [] => regDeleteHitAt prevIsWord []
  | c :: rest =>
      regDeleteHitAt prevIsWord (c :: rest) ||
        containsRegDeleteFrom (isWordChar c) rest

/-! ## Policy filter (`sanitizeCommandForMode`, main.ts lines 155-182)

The execution modes are the string enum
`"sandboxed" | "system-wide" | "dual-stream"` of the source. -/

inductive ExecutionMode where
  | sandboxed
  | systemWide
  | dualStream
  deriving DecidableEq, Repr

/-- The TS string literal of an execution mode (used in emitted notices). -/
def modeName : ExecutionMode → String
  | .sandboxed => "sandboxed"
  | .systemWide => "system-wide"
  | .dualStream => "dual-stream"

inductive AgentRoute where
  | local
  | cloud
  deriving DecidableEq, Repr

/-- `blockedPatterns[0]`: `/\b(remove-item|del|erase|rmdir|rd|format|shutdown|reboot)\b/i`
applied to the already-lowercased trimmed line (the `/i` flag is modelled by
lowercasing the input; all keywords are lowercase). -/
def destructiveFamilyHit (l : List Char) : Bool :=
  ["remove-item", "del", "erase", "rmdir", "rd", "format", "shutdown", "reboot"].any
    (fun w => containsWord l w.toList)

/-- `blockedPatterns[1]`: `/\b(reg\s+delete|takeown|icacls)\b/i` on the
lowercased trimmed line. -/
def permissionFamilyHit (l : List Char) : Bool :=
  containsRegDeleteFrom false l ||
    containsWord l "takeown".toList || containsWord l "icacls".toList

/-- Either blocked-pattern test of `sanitizeCommandForMode`. -/
def destructiveHit (l : List Char) : Bool :=
  destructiveFamilyHit l || permissionFamilyHit l

/-- `/^(cd|chdir|set-location|sl|pushd)\s+\.\./i` on the lowercased trimmed
line: a leading change-directory command, whitespace, then `..`. -/
def cdEscapeHit (l : List Char) : Bool :=
  ["cd", "chdir", "set-location", "sl", "pushd"].any fun k =>
    match beginsWith k.toList l with
    | none => false
    | some rest =>
        !(rest.takeWhile isJsWs).isEmpty &&
          (beginsWith "..".toList (rest.dropWhile isJsWs)).isSome

/-- The trimmed command line, lowercased (models `command.trim()` under the
case-insensitive `/i` regex flag). -/
def loweredTrim (command : String) : List Char :=
  (jsTrim command.toList).map Char.toLower

/-- Outcome of the policy filter: the source either returns the command
string unchanged or throws an `Error` with the given message. -/
inductive PolicyResult where
  | allowed (line : String)
  | rejected (reason : String)
  deriving DecidableEq, Repr

/-- `sanitizeCommandForMode` (main.ts 155-182).  Non-sandboxed modes return
the command unchanged; sandboxed mode returns the command unchanged unless
a blocked pattern or the directory-escape pattern matches the trimmed line,
in which case the source throws. -/
def sanitizeCommandForMode (command : String) (mode : ExecutionMode) : PolicyResult :=
  if mode ≠ ExecutionMode.sandboxed then
    .allowed command
  else
    if (jsTrim command.toList).isEmpty then
      .allowed command
    else
      if destructiveHit (loweredTrim command) then
        .rejected "Blocked high-risk command in sandboxed mode."
      else
        if cdEscapeHit (loweredTrim command) then
          .rejected "Directory traversal outside the project root is blocked in sandboxed mode."
        else
          .allowed command

/-- JS `String.prototype.endsWith` (on character lists). -/
def jsEndsWith (s pat : String) : Bool :=
  pat.toList.isSuffixOf s.toList

/-- `normalizeShellCommandForExe` (main.ts 184-190): rewrite `ls` to `dir`
for the legacy `cmd.exe` interpreter only (`trimmed.slice(3)` drops the
three characters `ls` and the following space). -/
def normalizeShellCommandForExe (command exe : String) : String :=
  if !jsEndsWith exe "cmd.exe" then command
  else
    if jsTrim command.toList = "ls".toList then "dir"
    else
      if "ls ".toList.isPrefixOf (jsTrim command.toList) then
        "dir " ++ String.mk ((jsTrim command.toList).drop 3)
      else command

/-! ## Session registry (`ptySessions` / `paneShellExe` maps, main.ts 32-33,
104-153, 379-429)

Process handles (`pty.IPty` objects) are modelled by numeric identities:
`pty.spawn` hands out a fresh identity each time, and the source's
`ptySessions.get(paneId) !== p` identity comparison becomes equality of
identities.  The observable effects of the registry are recorded as an
ordered event list. -/

/-- Observable registry effects: a spawn (with the working directory chosen
from the mode), a kill, a write of bytes to a process handle, a synthetic
`pty:data` chunk, and a `pty:exit` notification. -/
inductive PtyEv where
  | spawn (proc : Nat) (cwd : String)
  | kill (proc : Nat)
  | write (proc : Nat) (data : String)
  | ptyData (pane : String) (chunk : String)
  | ptyExit (pane : String)
  deriving DecidableEq, Repr

/-- Registry state: the two pane-keyed maps plus a counter providing fresh
process identities. -/
structure RegState where
  ptySessions : String → Option Nat
  paneShellExe : String → Option String
  nextProc : Nat

/-- Pointwise update of a string-keyed map. -/
def mapUpdate {α : Type} (m : String → Option α) (k : String) (v : Option α) :
    String → Option α :=
  fun x => if x = k then v else m x

/-- `destroyPtySession` (main.ts 104-111): kill the process if present and
delete both map entries; idempotent. -/
def destroyPtySession (s : RegState) (paneId : String) : RegState × List PtyEv :=
  ({ s with
      ptySessions := mapUpdate s.ptySessions paneId none
      paneShellExe := mapUpdate s.paneShellExe paneId none },
   match s.ptySessions paneId with
   | some p => [PtyEv.kill p]
   | none => [])

/-- `createPtySession` (main.ts 113-153).  `exe` models the result of
`shellPath()` (a filesystem probe), `homeDir`/`projectRoot` model
`os.homedir()`/`getProjectRoot()`, and `spawnFail` is `some message` when
`pty.spawn` throws with that message.  A pane that already has a session is
left untouched; a spawn failure emits one synthetic chunk and registers
nothing. -/
def createPtySession (s : RegState) (paneId : String) (mode : ExecutionMode)
    (exe homeDir projectRoot : String) (spawnFail : Option String) :
    RegState × List PtyEv :=
  if (s.ptySessions paneId).isSome then
    (s, [])
  else
    let cwd := if mode = ExecutionMode.systemWide then homeDir else projectRoot
    match spawnFail with
    | some message =>
        (s, [PtyEv.ptyData paneId
              ("\r\n[Vibe-Clone] Failed to start shell: " ++ message ++ "\r\n")])
    | none =>
        ({ ptySessions := mapUpdate s.ptySessions paneId (some s.nextProc)
           paneShellExe := mapUpdate s.paneShellExe paneId (some (exe.toLower))
           nextProc := s.nextProc + 1 },
         [PtyEv.spawn s.nextProc cwd])

/-- `pane:restart` (main.ts 391-395): destroy then create, as one
caller-visible operation. -/
def restartPtySession (s : RegState) (paneId : String) (mode : ExecutionMode)
    (exe homeDir projectRoot : String) (spawnFail : Option String) :
    RegState × List PtyEv :=
  let d := destroyPtySession s paneId
  let c := createPtySession d.1 paneId mode exe homeDir projectRoot spawnFail
  (c.1, d.2 ++ c.2)

/-- The `p.onExit` handler installed by `createPtySession` (main.ts
141-149), invoked when the process with identity `proc` (the `p` captured
by the closure) exits for pane `paneId`.  The identity guard
`ptySessions.get(paneId) !== p` suppresses stale exits. -/
def onExitHandler (s : RegState) (paneId : String) (proc : Nat) :
    RegState × List PtyEv :=
  if s.ptySessions paneId = some proc then
    ({ s with
        ptySessions := mapUpdate s.ptySessions paneId none
        paneShellExe := mapUpdate s.paneShellExe paneId none },
     [PtyEv.ptyExit paneId])
  else
    (s, [])

/-- The `shell:line` IPC handler (main.ts 404-420).  The interrupt byte
`"\u0003"` is special-cased before the mode is even read; otherwise the
line runs through the policy filter and shell-name normalization and is
written with a trailing `\r`, and a rejection is surfaced as a synthetic
pane chunk. -/
def shellLine (s : RegState) (paneId line : String) (mode : ExecutionMode) :
    List PtyEv :=
  if line = "\x03" then
    match s.ptySessions paneId with
    | some proc => [PtyEv.write proc "\x03"]
    | none => []
  else
    match sanitizeCommandForMode line mode with
    | .allowed cmd =>
        let normalized :=
          normalizeShellCommandForExe cmd ((s.paneShellExe paneId).getD "")
        match s.ptySessions paneId with
        | some proc => [PtyEv.write proc (normalized ++ "\r")]
        | none => []
    | .rejected message =>
        [PtyEv.ptyData paneId
          ("\r\n[Vibe-Clone:" ++ modeName mode ++ "] " ++ message ++ "\r\n")]

/-! ## Backend clients (main.ts 196-320)

`fetchWithTimeout` (196-207) builds the request as
`{ ...init, signal: controller.signal }` where `controller` is its local
timeout-only `AbortController`; the spread therefore *overrides* the
`signal: controller.signal` member the callers put into `init`, so the
combined external/caller signal is never attached to `fetch`.  An aborted
external token consequently neither rejects an in-flight fetch nor is
examined anywhere except in the `catch` blocks of the two retry loops.
The environment below reflects this: the outcome of each fetch attempt and
the abort flag observed by each `catch` are independent. -/

/-- What one `fetchWithTimeout` call does: resolve with a status and an
optional expected body field (`body.response` for the local client,
`choices[0].message.content` for the cloud client, `none` when the field is
missing), or reject (network error, or the 20s/30s timeout controller
firing).  A resolved body is assumed to be parseable JSON; the claims never
exercise `res.json()` rejection, which would land in the same `catch` as a
rejected fetch. -/
inductive FetchOutcome where
  | resolved (status : Nat) (field : Option String)
  | rejected (message : String)
  deriving DecidableEq, Repr

/-- Environment of one backend call: the outcome of the `i`-th fetch
attempt, and the value of `controller.signal.aborted` (the combined signal
built by `combineSignals`, which mirrors the external token) as read by the
`catch` block of attempt `i`. -/
structure CallEnv where
  outcome : Nat → FetchOutcome
  abortedAt : Nat → Bool

/-- Terminal failure of a backend call: the dedicated
`"Agent request was cancelled."` error, or any other error message. -/
inductive AgentError where
  | cancelled
  | failed (message : String)
  deriving DecidableEq, Repr

/-- `shouldRetryStatus` (main.ts 222-224). -/
def shouldRetryStatus (status : Nat) : Bool :=
  status = 408 || status = 429 || status ≥ 500

/-- `Response.ok`: status in the inclusive range 200-299. -/
def statusOk (status : Nat) : Bool :=
  200 ≤ status && status < 300

/-- One iteration of the shared retry loop of `runLocalAgentWithSignal` /
`runCloudAgentWithSignal` (main.ts 231-257 / 280-318): either the loop
finishes with a result, or it proceeds to the next attempt remembering a
new `lastError` (`none` models the `continue` path, which leaves
`lastError` untouched). -/
inductive StepOutcome where
  | finished (r : Except AgentError String)
  | nextAttempt (newLastError : Option String)
  deriving Repr

/-- The body of attempt `i` of the retry loop.  `errStatusMsg status` is the
message of the error thrown on a non-retryable status (`Ollama error: _` /
`Cloud API error: _`); that throw is caught by the `catch` of the *same*
iteration, which first consults the combined signal's aborted flag. -/
def attemptStep (errStatusMsg : Nat → String) (env : CallEnv) (i : Nat) :
    StepOutcome :=
  match env.outcome i with
  | .resolved status field =>
      if statusOk status then
        .finished (.ok (field.getD ""))
      else
        if shouldRetryStatus status && i = 0 then
          .nextAttempt none
        else
          if env.abortedAt i then
            .finished (.error .cancelled)
          else
            .nextAttempt (some (errStatusMsg status))
  | .rejected message =>
      if env.abortedAt i then
        .finished (.error .cancelled)
      else
        .nextAttempt (some message)

/-- The two-attempt `for` loop (`for (let attempt = 0; attempt < 2; ...)`)
plus the final `throw lastError ?? new Error(unknownMsg)`.  Returns the
number of `fetchWithTimeout` invocations made together with the result. -/
def runAgentLoop (errStatusMsg : Nat → String) (unknownMsg : String)
    (env : CallEnv) : Nat × Except AgentError String :=
  match attemptStep errStatusMsg env 0 with
  | .finished r => (1, r)
  | .nextAttempt le0 =>
      match attemptStep errStatusMsg env 1 with
      | .finished r => (2, r)
      | .nextAttempt le1 =>
          (2, .error (.failed ((le1 <|> le0).getD unknownMsg)))

/-- `runLocalAgentWithSignal` (main.ts 226-259). -/
def runLocalAgentWithSignal (env : CallEnv) : Nat × Except AgentError String :=
  runAgentLoop (fun status => "Ollama error: " ++ toString status)
    "Unknown local agent error" env

/-- `runCloudAgentWithSignal` (main.ts 265-320).  `apiKey` models
`decryptKey(getVault("cloudApiKeyEncrypted"))`; an empty key throws before
any fetch is issued. -/
def runCloudAgentWithSignal (apiKey : String) (env : CallEnv) :
    Nat × Except AgentError String :=
  if apiKey = "" then
    (0, .error (.failed "Cloud API key missing in Settings Vault. Add a key or use /local."))
  else
    runAgentLoop (fun status => "Cloud API error: " ++ toString status)
      "Unknown cloud agent error" env

/-! ## Agent router (`agent:run` handler, main.ts 439-502)

The handler is embedded as a function from router state and a request
environment to the successor state and the ordered list of observable
events it produces: AbortController operations on the per-pane controller
map, the `agent:routed` notifications, the network calls issued by the
backend clients (tagged with the cancellation token they share), and the
`agent:chunk` messages.

Controller identities are numbers handed out by a counter, mirroring
`new AbortController()`.  `RunEnv.outerAborted` is the value of
`controller.signal.aborted` read by the handler's own
`if (controller.signal.aborted)` check inside the cloud `catch`
(main.ts 455); it is left as an explicit environment value because it is a
read of a mutable flag distinct from the reads inside the backend loops. -/

/-- Observable events of one `agent:run` invocation. -/
inductive Ev where
  | abortTok (ctrl : Nat)
  | registerTok (pane : String) (ctrl : Nat)
  | deregisterTok (pane : String) (ctrl : Nat)
  | routed (pane : String) (route : AgentRoute) (modelName : String)
  | netCall (route : AgentRoute) (ctrl : Nat) (attempt : Nat)
  | chunk (pane : String) (body : String) (stream : Option String)
      (done : Bool) (error : Option String)
  deriving DecidableEq, Repr

/-- Router state: the `activeAgentControllers` map and a counter providing
fresh controller identities. -/
structure RouterState where
  controllers : String → Option Nat
  nextCtrl : Nat

/-- The vault values the `agent:run` path reads: the two model names and
the already-decrypted cloud API key
(`decryptKey(getVault("cloudApiKeyEncrypted"))`). -/
structure RouterVault where
  localModel : String
  cloudModel : String
  cloudApiKey : String

/-- Environment of one `agent:run` invocation: the fetch environments of
the (at most one) cloud call and the (at most one) local call, and the
handler-level aborted-flag read described above. -/
structure RunEnv where
  cloudEnv : CallEnv
  localEnv : CallEnv
  outerAborted : Bool

/-- `emitAgentRouted`'s model-name payload (main.ts 52-60). -/
def requestedModelName (route : AgentRoute) (vault : RouterVault) : String :=
  match route with
  | .local => vault.localModel
  | .cloud => vault.cloudModel

/-- The network-call events of one backend call that made `n` fetch
attempts using controller `ctrl`. -/
def netEvents (route : AgentRoute) (ctrl : Nat) (n : Nat) : List Ev :=
  (List.range n).map (fun i => Ev.netCall route ctrl i)

/-- Fuel-indexed scanner behind `jsSplit`: scan `l` for occurrences of the
non-empty separator `sep`, accumulating the current segment in reverse in
`acc`.  Each step consumes fuel 1 and at least one character, so fuel
`l.length + 1` always suffices. -/
def splitOnFuel (sep : List Char) : Nat → List Char → List Char → List (List Char)
  | 0, l, acc => [acc.reverse ++ l]
  | fuel + 1, l, acc =>
      match l with
      | [] => [acc.reverse]
      | c :: rest =>
          match beginsWith sep l with
          | some remainder => acc.reverse :: splitOnFuel sep fuel remainder []
          | none => splitOnFuel sep fuel rest (c :: acc)

/-- JS `String.prototype.split` with a non-empty string separator:
non-overlapping leftmost matches, keeping empty segments. -/
def jsSplit (t sep : String) : List String :=
  (splitOnFuel sep.toList (t.toList.length + 1) t.toList []).map String.mk

/-- JS `t.includes(pat)` for the non-empty literal delimiters used by the
source, expressed through the same split that the dual-stream branch
performs. -/
def jsIncludes (t pat : String) : Bool :=
  (jsSplit t pat).length != 1

/-- JS `String.prototype.replace` with a string pattern: replace only the
first occurrence. -/
def replaceFirst (t pat : String) : String :=
  match jsSplit t pat with
  | [] => t
  | [x] => x
  | x :: rest => x ++ String.intercalate pat rest

/-- The terminal error chunk
`{ paneId, chunk: "", error, done: true }` (main.ts 491-496). -/
def errorChunk (paneId message : String) : Ev :=
  .chunk paneId "" none true (some message)

/-- The `.message` of the propagated error object. -/
def agentErrMsg : AgentError → String
  | .cancelled => "Agent request was cancelled."
  | .failed message => message

/-- Response shaping (main.ts 469-488).  In dual-stream mode with the
literal `[ACTION]` delimiter present, JS destructuring
`const [thoughtRaw, actionRaw] = text.split("[ACTION]")` keeps only the
first two split segments; the thought segment has its first `[THOUGHT]`
occurrence removed, both segments are trimmed, and each chunk body gets a
trailing newline.  Otherwise a single final action chunk is emitted,
prefixed with the bracketed effective-route label. -/
def shapeChunks (paneId : String) (mode : ExecutionMode) (effRoute : AgentRoute)
    (vault : RouterVault) (text : String) : List Ev :=
  if mode = ExecutionMode.dualStream && jsIncludes text "[ACTION]" then
    let parts := jsSplit text "[ACTION]"
    let thought := jsTrimStr (replaceFirst (parts.headD "") "[THOUGHT]")
    let action := jsTrimStr ((parts[1]?).getD "")
    [Ev.chunk paneId (thought ++ "\n") (some "thought") false none,
     Ev.chunk paneId (action ++ "\n") (some "action") true none]
  else
    let routeLabel :=
      match effRoute with
      | .local => "[Local:" ++ vault.localModel ++ "]\n"
      | .cloud => "[Cloud:" ++ vault.cloudModel ++ "]\n"
    [Ev.chunk paneId (routeLabel ++ text ++ "\n") (some "action") true none]

/-- The `try` body of `agent:run` (main.ts 445-496) plus the error chunk of
its `catch`, given the fresh controller identity `ctrl`. -/
def agentRunBody (paneId : String) (ctrl : Nat) (route : AgentRoute)
    (mode : ExecutionMode) (vault : RouterVault) (env : RunEnv) : List Ev :=
  match route with
  | .local =>
      let call := runLocalAgentWithSignal env.localEnv
      netEvents .local ctrl call.1 ++
        (match call.2 with
         | .ok text => shapeChunks paneId mode .local vault text
         | .error e => [errorChunk paneId (agentErrMsg e)])
  | .cloud =>
      let call := runCloudAgentWithSignal vault.cloudApiKey env.cloudEnv
      netEvents .cloud ctrl call.1 ++
        (match call.2 with
         | .ok text => shapeChunks paneId mode .cloud vault text
         | .error e =>
             if env.outerAborted then
               [errorChunk paneId (agentErrMsg e)]
             else
               Ev.chunk paneId
                   ("Cloud route failed: " ++ agentErrMsg e ++
                     "\nFalling back to local model.\n")
                   (some "action") false none ::
                 (let fallback := runLocalAgentWithSignal env.localEnv
                  netEvents .local ctrl fallback.1 ++
                    (match fallback.2 with
                     | .ok text =>
                         Ev.routed paneId .local vault.localModel ::
                           shapeChunks paneId mode .local vault text
                     | .error e2 => [errorChunk paneId (agentErrMsg e2)])))

/-- The `agent:run` handler (main.ts 439-502): abort any previously
registered controller for the pane, register a fresh controller (the
`Map.set` replaces the old entry), emit the `agent:routed` notification for
the requested route, run the body, and deregister the controller in the
`finally` block. -/
def agentRun (s : RouterState) (paneId : String) (route : AgentRoute)
    (mode : ExecutionMode) (vault : RouterVault) (env : RunEnv) :
    RouterState × List Ev :=
  let ctrl := s.nextCtrl
  let priorEvs :=
    match s.controllers paneId with
    | some old => [Ev.abortTok old]
    | none => []
  let evs :=
    priorEvs ++
      [Ev.registerTok paneId ctrl,
       Ev.routed paneId route (requestedModelName route vault)] ++
      agentRunBody paneId ctrl route mode vault env ++
      [Ev.deregisterTok paneId ctrl]
  ({ controllers := mapUpdate s.controllers paneId none
     nextCtrl := s.nextCtrl + 1 },
   evs)

/-! ## Settings vault (`vault:set` handler, main.ts 515-528) -/

/-- The persisted vault record (`VaultData`, main.ts 11-18). -/
structure VaultData where
  cloudApiKeyEncrypted : String
  cloudApiBaseUrl : String
  localModel : String
  cloudModel : String
  executionMode : ExecutionMode
  systemWideAcknowledged : Bool
  deriving DecidableEq, Repr

/-- The partial update object accepted by `vault:set`; `none` models an
absent (or wrongly-typed, hence ignored) field. -/
structure VaultSetInput where
  cloudApiKey : Option String
  cloudApiBaseUrl : Option String
  localModel : Option String
  cloudModel : Option String
  executionMode : Option ExecutionMode
  systemWideAcknowledged : Option Bool
  deriving Repr

/-- The `vault:set` handler.  `encrypt` models `encryptKey` (whose output
depends on `safeStorage` availability).  The acknowledgement flag is
written first; the system-wide guard then throws, leaving every other field
untouched; otherwise each provided field is applied.  The result pairs the
thrown error message (if any) with the final persisted store. -/
def vaultSet (encrypt : String → String) (v : VaultData) (next : VaultSetInput) :
    Option String × VaultData :=
  let v1 :=
    match next.systemWideAcknowledged with
    | some b => { v with systemWideAcknowledged := b }
    | none => v
  if next.executionMode = some ExecutionMode.systemWide &&
      !v1.systemWideAcknowledged then
    (some "System-Wide mode requires acknowledgement in Settings Vault.", v1)
  else
    let v2 :=
      match next.cloudApiKey with
      | some k => { v1 with cloudApiKeyEncrypted := encrypt k }
      | none => v1
    let v3 :=
      match next.cloudApiBaseUrl with
      | some u => { v2 with cloudApiBaseUrl := u }
      | none => v2
    let v4 :=
      match next.localModel with
      | some m => { v3 with localModel := m }
      | none => v3
    let v5 :=
      match next.cloudModel with
      | some m => { v4 with cloudModel := m }
      | none => v4
    let v6 :=
      match next.executionMode with
      | some m => { v5 with executionMode := m }
      | none => v5
    (none, v6)

/-! ## Concrete fixtures used by witnesses and counterexamples -/

def regEmpty : RegState :=
  { ptySessions := fun _ => none, paneShellExe := fun _ => none, nextProc := 0 }

def pwshExe : String := "C:\\Program Files\\PowerShell\\7\\pwsh.exe"

/-- Registry after `pane:create` for pane `pane-1` (spawns process 0). -/
def regOne : RegState :=
  (createPtySession regEmpty "pane-1" .sandboxed pwshExe "C:\\Users\\dev" "C:\\proj" none).1

/-- Registry after a subsequent `pane:restart` for pane `pane-1` (kills
process 0, spawns process 1). -/
def regRestarted : RegState :=
  (restartPtySession regOne "pane-1" .sandboxed pwshExe "C:\\Users\\dev" "C:\\proj" none).1

def routerEmpty : RouterState :=
  { controllers := fun _ => none, nextCtrl := 0 }

/-- Router state with an in-flight request (controller 7) for pane `pane-1`. -/
def routerBusy : RouterState :=
  { controllers := fun p => if p = "pane-1" then some 7 else none, nextCtrl := 8 }

def demoVault : RouterVault :=
  { localModel := "llama3.2", cloudModel := "gpt-4o", cloudApiKey := "k" }

/-- Every fetch resolves 200 with the expected field `t`; never aborted. -/
def fetchOk (t : String) : CallEnv :=
  { outcome := fun _ => .resolved 200 (some t), abortedAt := fun _ => false }

/-- Every fetch resolves with status `st` and no body field; never aborted. -/
def fetchStatus (st : Nat) : CallEnv :=
  { outcome := fun _ => .resolved st none, abortedAt := fun _ => false }

/-- The external token is aborted throughout, but — because
`fetchWithTimeout` never attaches it to `fetch` — attempt 0 still resolves
with a transient 500 and attempt 1 resolves 200 `"ok"`. -/
def cancellationBugEnv : CallEnv :=
  { outcome := fun i => if i = 0 then .resolved 500 none else .resolved 200 (some "ok"),
    abortedAt := fun _ => true }

def envLocalOk (t : String) : RunEnv :=
  { cloudEnv := fetchOk "unused", localEnv := fetchOk t, outerAborted := false }

/-- Cloud fails twice with non-transient 401; local succeeds. -/
def envCloudFail401 : RunEnv :=
  { cloudEnv := fetchStatus 401, localEnv := fetchOk "hello", outerAborted := false }

def demoVaultData : VaultData :=
  { cloudApiKeyEncrypted := ""
    cloudApiBaseUrl := "https://api.openai.com/v1/chat/completions"
    localModel := "llama3.2"
    cloudModel := "gpt-4o"
    executionMode := .sandboxed
    systemWideAcknowledged := false }

/-- A `vault:set` request switching to system-wide mode (and changing the
local model) without acknowledgement. -/
def reqSystemWide : VaultSetInput :=
  { cloudApiKey := none
    cloudApiBaseUrl := none
    localModel := some "phi3"
    cloudModel := none
    executionMode := some .systemWide
    systemWideAcknowledged := none }

/-! ## Helper lemmas -/

theorem mem_netEvents {e : Ev} {r : AgentRoute} {ctrl n : Nat}
    (h : e ∈ netEvents r ctrl n) : ∃ i, i < n ∧ e = Ev.netCall r ctrl i := by
  simp only [netEvents, List.mem_map, List.mem_range] at h
  rcases h with ⟨i, hi, rfl⟩
  exact ⟨i, hi, rfl⟩

theorem netCall_not_mem_shapeChunks (r : AgentRoute) (c i : Nat) (paneId : String)
    (mode : ExecutionMode) (eff : AgentRoute) (vault : RouterVault) (t : String) :
    Ev.netCall r c i ∉ shapeChunks paneId mode eff vault t := by
  unfold shapeChunks
  split <;> simp

theorem netCall_ctrl_of_mem_body {r : AgentRoute} {c i : Nat} {paneId : String}
    {ctrl : Nat} {route : AgentRoute} {mode : ExecutionMode} {vault : RouterVault}
    {env : RunEnv}
    (h : Ev.netCall r c i ∈ agentRunBody paneId ctrl route mode vault env) :
    c = ctrl := by
  cases route <;> simp only [agentRunBody] at h
  case _ =>
    rcases List.mem_append.mp h with h | h
    · obtain ⟨_, _, heq⟩ := mem_netEvents h
      simp_all
    · split at h
      · exact (netCall_not_mem_shapeChunks _ _ _ _ _ _ _ _ h).elim
      · simp [errorChunk] at h
  case _ =>
    rcases List.mem_append.mp h with h | h
    · obtain ⟨_, _, heq⟩ := mem_netEvents h
      simp_all
    · split at h
      · exact (netCall_not_mem_shapeChunks _ _ _ _ _ _ _ _ h).elim
      · split at h
        · simp [errorChunk] at h
        · rcases List.mem_cons.mp h with h | h
          · simp at h
          · rcases List.mem_append.mp h with h | h
            · obtain ⟨_, _, heq⟩ := mem_netEvents h
              simp_all
            · split at h
              · rcases List.mem_cons.mp h with h | h
                · simp at h
                · exact (netCall_not_mem_shapeChunks _ _ _ _ _ _ _ _ h).elim
              · simp [errorChunk] at h

theorem destructiveHit_nil : destructiveHit [] = false := by decide

theorem cdEscapeHit_nil : cdEscapeHit [] = false := by decide

theorem netCall_ctrl_of_mem_agentRun {r : AgentRoute} {c i : Nat}
    {s : RouterState} {paneId : String} {route : AgentRoute}
    {mode : ExecutionMode} {vault : RouterVault} {env : RunEnv}
    (h : Ev.netCall r c i ∈ (agentRun s paneId route mode vault env).2) :
    c = s.nextCtrl := by
  simp only [agentRun] at h
  rcases List.mem_append.mp h with h | h
  · rcases List.mem_append.mp h with h | h
    · rcases List.mem_append.mp h with h | h
      · split at h <;> simp at h
      · simp at h
    · exact netCall_ctrl_of_mem_body h
  · simp at h

/-! ## Claim theorems -/

/-- C1: `agent:run` aborts the previously registered in-flight controller
for the pane as its very first action — strictly before the fresh
controller is registered (the `Map.set` that simultaneously discards the
old entry) and before any network call; every network call of the new
request uses only the freshly registered controller. -/
theorem agentRun_cancels_prior_request (s : RouterState) (paneId : String)
    (route : AgentRoute) (mode : ExecutionMode) (vault : RouterVault)
    (env : RunEnv) (old : Nat)
    (h : s.controllers paneId = some old) :
    ∃ rest,
      (agentRun s paneId route mode vault env).2 =
        Ev.abortTok old :: Ev.registerTok paneId s.nextCtrl :: rest ∧
      ∀ r c i, Ev.netCall r c i ∈ rest → c = s.nextCtrl := by
  refine ⟨Ev.routed paneId route (requestedModelName route vault) ::
      (agentRunBody paneId s.nextCtrl route mode vault env ++
        [Ev.deregisterTok paneId s.nextCtrl]), ?_, ?_⟩
  · simp [agentRun, h]
  · intro r c i hmem
    rcases List.mem_cons.mp hmem with hmem | hmem
    · exact absurd hmem (by simp)
    · rcases List.mem_append.mp hmem with hmem | hmem
      · exact netCall_ctrl_of_mem_body hmem
      · simp at hmem

/-- C1 witness: pane `pane-1` has in-flight controller 7; a new local-route
request aborts it first, registers controller 8, and all its network calls
use controller 8. -/
theorem agentRun_cancels_prior_request_witness :
    routerBusy.controllers "pane-1" = some 7 ∧
    ∃ rest,
      (agentRun routerBusy "pane-1" .local .sandboxed demoVault (envLocalOk "hi")).2 =
        Ev.abortTok 7 :: Ev.registerTok "pane-1" 8 :: rest ∧
      ∀ r c i, Ev.netCall r c i ∈ rest → c = 8 :=
  ⟨rfl,
   agentRun_cancels_prior_request routerBusy "pane-1" .local .sandboxed demoVault
     (envLocalOk "hi") 7 rfl⟩

/-- C2: cloud-failure handling of `agent:run`.  With a non-cancellation
cloud failure (the controller's aborted flag false at the handler's check)
the handler emits the informational fallback chunk, then calls the local
backend using the same (freshly registered) controller; if the local call
succeeds, the effective route becomes local — a second `agent:routed`
notification reports route local and the final chunk carries the local
label; if the local call also fails, that failure is terminal.  With a
cloud failure that is a cancellation (aborted flag true) the failure
propagates immediately and no fallback call to the local backend is
made. -/
theorem agentRun_cloud_fallback_and_cancellation (s : RouterState)
    (paneId : String) (mode : ExecutionMode) (vault : RouterVault)
    (env : RunEnv) (nc nl : Nat) (m t : String) (e2 : AgentError) :
    (runCloudAgentWithSignal vault.cloudApiKey env.cloudEnv = (nc, .error (.failed m)) →
      env.outerAborted = false →
      runLocalAgentWithSignal env.localEnv = (nl, .ok t) →
      (agentRun s paneId .cloud mode vault env).2 =
        (match s.controllers paneId with
         | some oldCtrl => [Ev.abortTok oldCtrl]
         | none => []) ++
        [Ev.registerTok paneId s.nextCtrl,
         Ev.routed paneId .cloud vault.cloudModel] ++
        netEvents .cloud s.nextCtrl nc ++
        [Ev.chunk paneId
          ("Cloud route failed: " ++ m ++ "\nFalling back to local model.\n")
          (some "action") false none] ++
        netEvents .local s.nextCtrl nl ++
        [Ev.routed paneId .local vault.localModel] ++
        shapeChunks paneId mode .local vault t ++
        [Ev.deregisterTok paneId s.nextCtrl] ∧
      (∀ r c i, Ev.netCall r c i ∈ (agentRun s paneId .cloud mode vault env).2 →
        c = s.nextCtrl)) ∧
    (runCloudAgentWithSignal vault.cloudApiKey env.cloudEnv = (nc, .error (.failed m)) →
      env.outerAborted = false →
      runLocalAgentWithSignal env.localEnv = (nl, .error e2) →
      (agentRun s paneId .cloud mode vault env).2 =
        (match s.controllers paneId with
         | some oldCtrl => [Ev.abortTok oldCtrl]
         | none => []) ++
        [Ev.registerTok paneId s.nextCtrl,
         Ev.routed paneId .cloud vault.cloudModel] ++
        netEvents .cloud s.nextCtrl nc ++
        [Ev.chunk paneId
          ("Cloud route failed: " ++ m ++ "\nFalling back to local model.\n")
          (some "action") false none] ++
        netEvents .local s.nextCtrl nl ++
        [Ev.chunk paneId "" none true (some (agentErrMsg e2))] ++
        [Ev.deregisterTok paneId s.nextCtrl]) ∧
    (runCloudAgentWithSignal vault.cloudApiKey env.cloudEnv = (nc, .error .cancelled) →
      env.outerAborted = true →
      (agentRun s paneId .cloud mode vault env).2 =
        (match s.controllers paneId with
         | some oldCtrl => [Ev.abortTok oldCtrl]
         | none => []) ++
        [Ev.registerTok paneId s.nextCtrl,
         Ev.routed paneId .cloud vault.cloudModel] ++
        netEvents .cloud s.nextCtrl nc ++
        [Ev.chunk paneId "" none true (some "Agent request was cancelled.")] ++
        [Ev.deregisterTok paneId s.nextCtrl] ∧
      (∀ c i, Ev.netCall .local c i ∉ (agentRun s paneId .cloud mode vault env).2)) := by
  refine ⟨?_, ?_, ?_⟩
  · intro hc hab hl
    constructor
    · cases hp : s.controllers paneId <;>
        simp [agentRun, agentRunBody, hc, hab, hl, hp, requestedModelName, agentErrMsg]
    · intro r c i hmem
      exact netCall_ctrl_of_mem_agentRun hmem
  · intro hc hab hl
    cases hp : s.controllers paneId <;>
      simp [agentRun, agentRunBody, hc, hab, hl, hp, requestedModelName, errorChunk,
        agentErrMsg]
  · intro hc hab
    have htr : (agentRun s paneId .cloud mode vault env).2 =
        (match s.controllers paneId with
         | some oldCtrl => [Ev.abortTok oldCtrl]
         | none => []) ++
        [Ev.registerTok paneId s.nextCtrl,
         Ev.routed paneId .cloud vault.cloudModel] ++
        netEvents .cloud s.nextCtrl nc ++
        [Ev.chunk paneId "" none true (some "Agent request was cancelled.")] ++
        [Ev.deregisterTok paneId s.nextCtrl] := by
      cases hp : s.controllers paneId <;>
        simp [agentRun, agentRunBody, hc, hab, hp, requestedModelName, errorChunk,
          agentErrMsg]
    refine ⟨htr, ?_⟩
    intro c i hmem
    rw [htr] at hmem
    cases hp : s.controllers paneId <;> rw [hp] at hmem <;>
      simp [netEvents] at hmem

/-- C2 witness: cloud fails twice with non-transient 401, the fallback
chunk is emitted, the local backend is called with the same controller 0,
succeeds with `hello`, and the second routed notification reports route
local. -/
theorem agentRun_cloud_fallback_witness :
    runCloudAgentWithSignal demoVault.cloudApiKey envCloudFail401.cloudEnv =
      (2, Except.error (.failed "Cloud API error: 401")) ∧
    (agentRun routerEmpty "pane-1" .cloud .sandboxed demoVault envCloudFail401).2 =
      [Ev.registerTok "pane-1" 0,
       Ev.routed "pane-1" .cloud "gpt-4o",
       Ev.netCall .cloud 0 0,
       Ev.netCall .cloud 0 1,
       Ev.chunk "pane-1"
         "Cloud route failed: Cloud API error: 401\nFalling back to local model.\n"
         (some "action") false none,
       Ev.netCall .local 0 0,
       Ev.routed "pane-1" .local "llama3.2",
       Ev.chunk "pane-1" "[Local:llama3.2]\nhello\n" (some "action") true none,
       Ev.deregisterTok "pane-1" 0] :=
  ⟨rfl, by
    have h := (agentRun_cloud_fallback_and_cancellation routerEmpty "pane-1"
      .sandboxed demoVault envCloudFail401 2 1 "Cloud API error: 401" "hello"
      (.failed "unused")).1 rfl rfl rfl
    exact h.1.trans (by decide)⟩

/-- C3: in sandboxed mode the policy filter rejects every command line
whose trimmed text matches a destructive-operation pattern (the
delete/remove/format/shutdown/reboot family and the
permission-modification family) or the leading change-directory plus `..`
pattern; in particular `rmdir /s project` is rejected; in system-wide and
dual-stream modes every line passes through unchanged. -/
theorem sanitize_sandboxed_blocks_and_other_modes_pass :
    (∀ command : String,
        (destructiveHit (loweredTrim command) || cdEscapeHit (loweredTrim command)) = true →
        ∃ reason, sanitizeCommandForMode command .sandboxed = .rejected reason) ∧
    sanitizeCommandForMode "rmdir /s project" .sandboxed =
      .rejected "Blocked high-risk command in sandboxed mode." ∧
    (∀ command : String,
        sanitizeCommandForMode command .systemWide = .allowed command ∧
        sanitizeCommandForMode command .dualStream = .allowed command) := by
  refine ⟨?_, by decide, ?_⟩
  · intro command h
    by_cases he : (jsTrim command.toList).isEmpty
    · rw [List.isEmpty_iff] at he
      rw [loweredTrim, he] at h
      simp [destructiveHit_nil, cdEscapeHit_nil] at h
    · unfold sanitizeCommandForMode
      rw [if_neg (by simp), if_neg (by simpa using he)]
      rcases Bool.or_eq_true_iff.mp h with hd | hc
      · rw [if_pos hd]
        exact ⟨_, rfl⟩
      · by_cases hd : destructiveHit (loweredTrim command)
        · rw [if_pos hd]
          exact ⟨_, rfl⟩
        · rw [if_neg hd, if_pos hc]
          exact ⟨_, rfl⟩
  · intro command
    exact ⟨rfl, rfl⟩

/-- C3 witness: `reg  delete HKLM\Sam` matches the permission-modification
pattern and is rejected in sandboxed mode. -/
theorem sanitize_sandboxed_blocks_witness :
    (destructiveHit (loweredTrim "reg  delete HKLM\\Sam") ||
        cdEscapeHit (loweredTrim "reg  delete HKLM\\Sam")) = true ∧
    ∃ reason, sanitizeCommandForMode "reg  delete HKLM\\Sam" .sandboxed = .rejected reason :=
  ⟨by decide,
   sanitize_sandboxed_blocks_and_other_modes_pass.1 "reg  delete HKLM\\Sam" (by decide)⟩

/-- C4 counterexample: in dual-stream mode with response text
`A[ACTION]B[ACTION]C` (two occurrences of the delimiter), the emitted
action chunk carries `B\n` — only the segment between the first and second
delimiter occurrences — and not the full text after the delimiter,
`B[ACTION]C`, which the claim as stated requires (under either
newline convention). -/
theorem agentRun_dualStream_second_delimiter_cex :
    (agentRun routerEmpty "pane-1" .local .dualStream demoVault
        (envLocalOk "A[ACTION]B[ACTION]C")).2 =
      [Ev.registerTok "pane-1" 0,
       Ev.routed "pane-1" .local "llama3.2",
       Ev.netCall .local 0 0,
       Ev.chunk "pane-1" "A\n" (some "thought") false none,
       Ev.chunk "pane-1" "B\n" (some "action") true none,
       Ev.deregisterTok "pane-1" 0] ∧
    ("B\n" : String) ≠ "B[ACTION]C" ∧ ("B\n" : String) ≠ "B[ACTION]C\n" :=
  ⟨by decide, by decide, by decide⟩

/-- C4 (amended): a request completing with response text `t` emits, after
the routed notification and the network calls, exactly the shaping chunks
and the controller deregistration.  In dual-stream mode with the literal
`[ACTION]` delimiter present, exactly two chunks are emitted: first a
`thought` chunk whose body is the text before the first delimiter with the
first `[THOUGHT]` occurrence removed (trimmed, newline-terminated), then an
`action` chunk with `done = true` whose body is the segment between the
first and second delimiter occurrences (trimmed, newline-terminated; text
from a second delimiter occurrence on is dropped by the two-element JS
destructuring of `split`).  Otherwise exactly one `action` chunk with
`done = true` is emitted, prefixed with the bracketed label of the
effective route and its model name. -/
theorem agentRun_response_shaping :
    (∀ (s : RouterState) (paneId : String) (mode : ExecutionMode)
        (vault : RouterVault) (env : RunEnv) (n : Nat) (t : String),
        runLocalAgentWithSignal env.localEnv = (n, .ok t) →
        (agentRun s paneId .local mode vault env).2 =
          (match s.controllers paneId with
           | some oldCtrl => [Ev.abortTok oldCtrl]
           | none => []) ++
          [Ev.registerTok paneId s.nextCtrl,
           Ev.routed paneId .local vault.localModel] ++
          netEvents .local s.nextCtrl n ++
          shapeChunks paneId mode .local vault t ++
          [Ev.deregisterTok paneId s.nextCtrl]) ∧
    (∀ (paneId : String) (eff : AgentRoute) (vault : RouterVault) (t : String),
        jsIncludes t "[ACTION]" = true →
        shapeChunks paneId .dualStream eff vault t =
          [Ev.chunk paneId
             (jsTrimStr (replaceFirst ((jsSplit t "[ACTION]").headD "") "[THOUGHT]") ++ "\n")
             (some "thought") false none,
           Ev.chunk paneId
             (jsTrimStr (((jsSplit t "[ACTION]")[1]?).getD "") ++ "\n")
             (some "action") true none]) ∧
    (∀ (paneId : String) (mode : ExecutionMode) (eff : AgentRoute)
        (vault : RouterVault) (t : String),
        (mode = ExecutionMode.dualStream && jsIncludes t "[ACTION]") = false →
        shapeChunks paneId mode eff vault t =
          [Ev.chunk paneId
             ((match eff with
               | .local => "[Local:" ++ vault.localModel ++ "]\n"
               | .cloud => "[Cloud:" ++ vault.cloudModel ++ "]\n") ++ t ++ "\n")
             (some "action") true none]) := by
  refine ⟨?_, ?_, ?_⟩
  · intro s paneId mode vault env n t hl
    cases hp : s.controllers paneId <;>
      simp [agentRun, agentRunBody, hl, hp, requestedModelName]
  · intro paneId eff vault t hinc
    unfold shapeChunks
    rw [if_pos (by simp [hinc])]
  · intro paneId mode eff vault t hno
    unfold shapeChunks
    rw [if_neg (by simp [hno])]

/-- C4 witness: a dual-stream response `[THOUGHT] plan [ACTION] run ` with
a single delimiter yields exactly the thought chunk `plan\n` and the final
action chunk `run\n`. -/
theorem agentRun_response_shaping_witness :
    runLocalAgentWithSignal (envLocalOk "[THOUGHT] plan [ACTION] run ").localEnv =
      (1, Except.ok "[THOUGHT] plan [ACTION] run ") ∧
    (agentRun routerEmpty "pane-1" .local .dualStream demoVault
        (envLocalOk "[THOUGHT] plan [ACTION] run ")).2 =
      [Ev.registerTok "pane-1" 0,
       Ev.routed "pane-1" .local "llama3.2",
       Ev.netCall .local 0 0,
       Ev.chunk "pane-1" "plan\n" (some "thought") false none,
       Ev.chunk "pane-1" "run\n" (some "action") true none,
       Ev.deregisterTok "pane-1" 0] :=
  ⟨rfl, by
    have h := agentRun_response_shaping.1 routerEmpty "pane-1" .dualStream demoVault
      (envLocalOk "[THOUGHT] plan [ACTION] run ") 1 "[THOUGHT] plan [ACTION] run " rfl
    exact h.trans (by decide)⟩

/-- C5: the retry loop does NOT honour cancellation.  Because
`fetchWithTimeout` builds its request as `{ ...init, signal: controller.signal }`
with its own timeout-only controller, the caller's combined signal is never
attached to `fetch`; the aborted flag is consulted only inside `catch`.
With the token aborted during the whole call (`abortedAt` constantly true)
and attempt 0 resolving with transient status 500, the loop issues a second
fetch attempt and returns its 200 response successfully, instead of
failing immediately with `Cancelled` and making no further attempt. -/
theorem runLocal_retries_despite_abort :
    cancellationBugEnv.abortedAt 0 = true ∧
    cancellationBugEnv.abortedAt 1 = true ∧
    runLocalAgentWithSignal cancellationBugEnv = (2, Except.ok "ok") :=
  ⟨rfl, rfl, rfl⟩

/-- C6: a stale exit notification — one whose process handle differs from
the handle currently registered for the pane — removes nothing, emits no
exit event, and leaves the registry state unchanged. -/
theorem onExit_stale_is_noop (s : RegState) (paneId : String) (proc : Nat)
    (h : s.ptySessions paneId ≠ some proc) :
    onExitHandler s paneId proc = (s, []) := by
  unfold onExitHandler
  rw [if_neg h]

/-- C6 witness: after `create` (process 0) followed by `restart` (process 1),
the late exit of superseded process 0 is suppressed. -/
theorem onExit_stale_is_noop_witness :
    regRestarted.ptySessions "pane-1" = some 1 ∧
    onExitHandler regRestarted "pane-1" 0 = (regRestarted, []) :=
  ⟨by decide, onExit_stale_is_noop regRestarted "pane-1" 0 (by decide)⟩

/-- C7: `createPtySession` is idempotent: when a live session is already
registered for the pane, it changes no registry state, spawns no process
and emits nothing — so the registry never holds two live sessions for one
pane identifier. -/
theorem createPtySession_idempotent (s : RegState) (paneId : String)
    (mode : ExecutionMode) (exe homeDir projectRoot : String)
    (spawnFail : Option String) (q : Nat)
    (h : s.ptySessions paneId = some q) :
    createPtySession s paneId mode exe homeDir projectRoot spawnFail = (s, []) := by
  unfold createPtySession
  rw [if_pos (by rw [h]; rfl)]

/-- C7 witness: a second `create` for pane `pane-1` (which holds live
process 0) is a no-op. -/
theorem createPtySession_idempotent_witness :
    regOne.ptySessions "pane-1" = some 0 ∧
    createPtySession regOne "pane-1" .sandboxed pwshExe "C:\\Users\\dev" "C:\\proj" none =
      (regOne, []) :=
  ⟨by decide,
   createPtySession_idempotent regOne "pane-1" .sandboxed pwshExe "C:\\Users\\dev"
     "C:\\proj" none 0 (by decide)⟩

/-- C8: a `shell:line` carrying the interrupt byte 0x03 is written to the
pane's process immediately and verbatim — no trailing terminator, no policy
filter, no shell-name normalization — in every execution mode. -/
theorem shellLine_interrupt_bypasses_policy (s : RegState) (paneId : String)
    (proc : Nat) (mode : ExecutionMode)
    (h : s.ptySessions paneId = some proc) :
    shellLine s paneId "\x03" mode = [PtyEv.write proc "\x03"] := by
  unfold shellLine
  rw [if_pos rfl, h]

/-- C8 witness: the interrupt byte reaches live process 0 of pane `pane-1`
even in sandboxed mode. -/
theorem shellLine_interrupt_bypasses_policy_witness :
    regOne.ptySessions "pane-1" = some 0 ∧
    shellLine regOne "pane-1" "\x03" .sandboxed = [PtyEv.write 0 "\x03"] :=
  ⟨by decide,
   shellLine_interrupt_bypasses_policy regOne "pane-1" 0 .sandboxed (by decide)⟩

/-- C9: `vault:set` rejects a change of `executionMode` to system-wide
unless the acknowledgement flag is effectively true (stored previously, or
supplied true in the same call); on rejection the store keeps every field
of the previous vault except `systemWideAcknowledged`, which was applied
before the guard; with acknowledgement the call does not throw. -/
theorem vaultSet_systemWide_guard (encrypt : String → String) (v : VaultData)
    (next : VaultSetInput) :
    (next.executionMode = some ExecutionMode.systemWide →
      next.systemWideAcknowledged.getD v.systemWideAcknowledged = false →
      vaultSet encrypt v next =
        (some "System-Wide mode requires acknowledgement in Settings Vault.",
         { v with systemWideAcknowledged := false })) ∧
    (next.systemWideAcknowledged.getD v.systemWideAcknowledged = true →
      (vaultSet encrypt v next).1 = none) := by
  constructor
  · intro hmode hack
    unfold vaultSet
    cases hb : next.systemWideAcknowledged with
    | none =>
        rw [hb] at hack
        simp only [Option.getD] at hack
        rw [hmode]
        simp only [hb]
        rw [if_pos (by simp [hack])]
        cases v
        simp_all
    | some b =>
        rw [hb] at hack
        simp only [Option.getD] at hack
        subst hack
        rw [hmode]
        simp only [hb]
        rw [if_pos (by simp)]
  · intro hack
    unfold vaultSet
    cases hb : next.systemWideAcknowledged with
    | none =>
        rw [hb] at hack
        simp only [Option.getD] at hack
        rw [if_neg (by simp [hb, hack])]
    | some b =>
        rw [hb] at hack
        simp only [Option.getD] at hack
        subst hack
        rw [if_neg (by simp [hb])]

/-- C9 witness: switching `demoVaultData` (acknowledgement false) to
system-wide while also changing the local model is rejected and leaves the
store unchanged. -/
theorem vaultSet_systemWide_guard_witness :
    reqSystemWide.executionMode = some ExecutionMode.systemWide ∧
    vaultSet id demoVaultData reqSystemWide =
      (some "System-Wide mode requires acknowledgement in Settings Vault.",
       demoVaultData) :=
  ⟨rfl,
   (vaultSet_systemWide_guard id demoVaultData reqSystemWide).1 rfl rfl⟩

/-- C10: the policy filter never rewrites: for every command line and every
mode, `sanitizeCommandForMode` either rejects or returns the input string
exactly; empty and whitespace-only lines pass sandboxed mode identically;
the `ls` rewriting lives only in the separate
`normalizeShellCommandForExe` step. -/
theorem sanitize_never_rewrites :
    (∀ (command : String) (mode : ExecutionMode),
        sanitizeCommandForMode command mode = .allowed command ∨
        ∃ reason, sanitizeCommandForMode command mode = .rejected reason) ∧
    sanitizeCommandForMode "" .sandboxed = .allowed "" ∧
    sanitizeCommandForMode "  \t " .sandboxed = .allowed "  \t " ∧
    normalizeShellCommandForExe "ls" "C:\\Windows\\System32\\cmd.exe" = "dir" := by
  refine ⟨?_, by decide, by decide, by decide⟩
  intro command mode
  unfold sanitizeCommandForMode
  split
  · exact Or.inl rfl
  · split
    · exact Or.inl rfl
    · split
      · exact Or.inr ⟨_, rfl⟩
      · split
        · exact Or.inr ⟨_, rfl⟩
        · exact Or.inl rfl

end VibeAde
